import Mathlib

/-!
Shallow embedding of the NixCore off-chain governance voting paths:
`OffChainGovernance::vote` (src/qt/offchaingovernance.cpp) and the
`postoffchainproposals` RPC (src/wallet/rpcwallet.cpp), together with the
wallet-side helpers they use.  External wallet capabilities (ownership test,
destination decoding, key lookup, compact signing, base64 rendering) are
fields of the wallet record; everything the two functions themselves do is
translated directly from the C++.
-/

/-- A wallet output script.  `sid` is the script's identity (its byte
content, abstracted); `isPayToScriptHashAny` mirrors
`CScript::IsPayToScriptHashAny()`. -/
structure CScript where
  sid : Nat
  isPayToScriptHashAny : Bool
deriving DecidableEq, Repr

/-- One transaction output; only the script matters to the voting paths. -/
structure TxOut where
  scriptPubKey : CScript
deriving DecidableEq, Repr

/-- A wallet transaction, reduced to the fields the voting paths read:
`IsCoinStake()`, `GetTxTime()` and the outputs. -/
structure CWalletTx where
  isCoinStake : Bool
  txTime : Int
  vout : List TxOut
deriving DecidableEq, Repr

/-- A decoded destination.  `valid` mirrors `IsValidDestination(dest)`;
`addr` is the `EncodeDestination(dest)` rendering. -/
structure CTxDestination where
  valid : Bool
  addr : String
deriving DecidableEq, Repr

/-- A key identifier; `isNull` mirrors `CKeyID::IsNull()`. -/
structure CKeyID where
  isNull : Bool
  kid : Nat
deriving DecidableEq, Repr

/-- A private key held by the wallet. -/
structure CKey where
  keyData : Nat
deriving DecidableEq, Repr

/-- A hash value produced by `CHashWriter::GetHash()`.  The hash is modelled
by its preimage stream (the serialized items written into the writer, in
order), i.e. as a collision-free hash. -/
structure GovHash where
  preimage : List String
deriving DecidableEq, Repr

/-- `CHashWriter(SER_GETHASH, 0)`: accumulates serialized items. -/
structure CHashWriter where
  data : List String
deriving DecidableEq, Repr

def CHashWriter.init : CHashWriter := ⟨[]⟩

/-- `ss << s` for a string item. -/
def CHashWriter.push (w : CHashWriter) (s : String) : CHashWriter :=
  ⟨w.data ++ [s]⟩

/-- `ss.GetHash()`. -/
def CHashWriter.GetHash (w : CHashWriter) : GovHash :=
  ⟨w.data⟩

/-- The wallet's message-signing domain tag (`strMessageMagic`), written
into the hash writer before the ballot message.  Its concrete value lives
outside these sources; only its presence as a domain separator matters. -/
def strMessageMagic : String := "Nix Signed Message:\n"

/-- The wallet state and capabilities the voting paths consume:
`mapWallet`, `::IsMine`, `ExtractDestination`/`EncodeDestination` (fused:
the returned destination carries its encoding), `GetKeyForDestination`,
`CWallet::GetKey`, `CKey::SignCompact` and `EncodeBase64`. -/
structure CWallet where
  mapWallet : List CWalletTx
  isMine : CScript → Bool
  extractDestination : CScript → CTxDestination
  getKeyForDestination : CTxDestination → CKeyID
  getKey : CKeyID → Option CKey
  signCompact : CKey → GovHash → Option (List Nat)
  encodeBase64 : List Nat → String

/-- A proposal as buffered by the governance client.  All fields are the
strings received from the coordination service; a default-constructed
`Proposals` (the C++ `Proposals selectedProp;`) has every field empty. -/
structure Proposals where
  name : String := ""
  address : String := ""
  amount : String := ""
  details : String := ""
  txid : String := ""
  end_time : String := ""
  votes_affirm : String := ""
  votes_oppose : String := ""
  vote_id : String := ""
deriving DecidableEq, Repr

/-- A vote record returned by the coordination service.  `weight` is the
numeric value the C++ obtains with `std::stoi(votes[i].weight)`. -/
structure VoteRecord where
  vote_id : String
  address : String
  weight : Int
deriving DecidableEq, Repr

/-- A persisted governance ledger record (`CGovernanceEntry`). -/
structure CGovernanceEntry where
  voteID : String
  voteWeight : Int
deriving DecidableEq, Repr

/-- `RequestTypes` sent through `g_governance.SendRequests`. -/
inductive RequestType
  | GET_PROPOSALS
  | CAST_VOTE
deriving DecidableEq, Repr

/-- One network request issued to the coordination service. -/
structure GovRequest where
  rtype : RequestType
  payload : String
deriving DecidableEq, Repr

/-- The inner `for(auto& vout : wtx.tx->vout)` loop shared by both cast
paths: keep a script only if it is mine, it is not in a script-hash family,
and it is not already recorded; append preserves first-seen order. -/
def voutScan (pwallet : CWallet) (acc : List CScript) : List TxOut → List CScript
  | [] => acc
  | v :: rest =>
    if pwallet.isMine v.scriptPubKey = false then voutScan pwallet acc rest
    else if v.scriptPubKey.isPayToScriptHashAny then voutScan pwallet acc rest
    else if v.scriptPubKey ∈ acc then voutScan pwallet acc rest
    else voutScan pwallet (acc ++ [v.scriptPubKey]) rest

/-- `46 * 60 * 60 * 24`, the RPC path's `vote_timeframe`. -/
def vote_timeframe : Int := 46 * 60 * 60 * 24

/-- The outer transaction loop of `postoffchainproposals`: skip a
transaction unless it is a coinstake whose time is not before
`current_time - vote_timeframe`. -/
def txScanRPC (pwallet : CWallet) (current_time : Int) (acc : List CScript) :
    List CWalletTx → List CScript
  | [] => acc
  | wtx :: rest =>
    if ¬wtx.isCoinStake ∨ wtx.txTime < current_time - vote_timeframe then
      txScanRPC pwallet current_time acc rest
    else
      txScanRPC pwallet current_time (voutScan pwallet acc wtx.vout) rest

/-- The outer transaction loop of `OffChainGovernance::vote`: skip a
transaction unless it is a coinstake.  (This path has no time filter.) -/
def txScanGUI (pwallet : CWallet) (acc : List CScript) :
    List CWalletTx → List CScript
  | [] => acc
  | wtx :: rest =>
    if ¬wtx.isCoinStake then txScanGUI pwallet acc rest
    else txScanGUI pwallet (voutScan pwallet acc wtx.vout) rest

/-- `votingAddresses` as collected by the `postoffchainproposals` RPC. -/
def collectVotingAddressesRPC (pwallet : CWallet) (current_time : Int) :
    List CScript :=
  txScanRPC pwallet current_time [] pwallet.mapWallet

/-- `votingAddresses` as collected by `OffChainGovernance::vote`. -/
def collectVotingAddressesGUI (pwallet : CWallet) : List CScript :=
  txScanGUI pwallet [] pwallet.mapWallet

/-- The per-address failure kinds of the ballot-signing loop, in the order
the C++ checks them: invalid destination, null key id, missing private key,
`SignCompact` declining. -/
inductive SignErr
  | addressDecoding
  | keyIDNull
  | keyUnavailable
  | signFailed
deriving DecidableEq, Repr

/-- The pieces of one signed ballot: the encoded address and the
base64-rendered signature. -/
structure BallotParts where
  strAddress : String
  sigB64 : String
deriving DecidableEq, Repr

/-- `std::string strMessage = vote_id + "_" + decision;` -/
def strMessageFor (vote_id decision : String) : String :=
  vote_id ++ "_" ++ decision

/-- The body of the signing loop for a single address: decode the
destination, check validity, resolve the key id and the key, hash
`strMessageMagic` then the ballot message, and sign compactly. -/
def signOneBallot (w : CWallet) (vote_id decision : String)
    (addrScript : CScript) : Except SignErr BallotParts :=
  let dest := w.extractDestination addrScript
  let strAddress := dest.addr
  let strMessage := strMessageFor vote_id decision
  if dest.valid = false then .error .addressDecoding
  else
    let keyID := w.getKeyForDestination dest
    if keyID.isNull then .error .keyIDNull
    else
      match w.getKey keyID with
      | none => .error .keyUnavailable
      | some key =>
        let ss := (CHashWriter.init.push strMessageMagic).push strMessage
        match w.signCompact key ss.GetHash with
        | none => .error .signFailed
        | some vchSig => .ok ⟨strAddress, w.encodeBase64 vchSig⟩

/-- The JSON object appended to `postMessage` for one ballot. -/
def ballotJSON (vote_id strAddress sigB64 decision : String) : String :=
  "\x7b\"voteid\":\"" ++ vote_id ++
  "\",\"address\":\"" ++ strAddress ++
  "\",\"signature\":\"" ++ sigB64 ++
  "\",\"ballot\":\"" ++ decision ++ "\"\x7d"

/-- The signing loop over `votingAddresses` with its running index `id`:
the first per-address failure aborts the whole loop; otherwise each ballot
object is appended, comma-separated after the first. -/
def signBallotsLoop (w : CWallet) (vote_id decision : String) (id : Nat) :
    List CScript → Except SignErr String
  | [] => .ok ""
  | a :: rest =>
    match signOneBallot w vote_id decision a with
    | .error e => .error e
    | .ok parts =>
      match signBallotsLoop w vote_id decision (id + 1) rest with
      | .error e => .error e
      | .ok tail =>
        .ok ((if id ≠ 0 then "," else "") ++
             ballotJSON vote_id parts.strAddress parts.sigB64 decision ++ tail)

/-- `postMessage`: the bracketed JSON array of signed ballots, or the first
signing failure. -/
def buildPostMessage (w : CWallet) (vote_id decision : String)
    (addrs : List CScript) : Except SignErr String :=
  match signBallotsLoop w vote_id decision 0 addrs with
  | .error e => .error e
  | .ok inner => .ok ("[" ++ inner ++ "]")

/-- The weight-aggregation loop, with its accumulator:
`if (votes[i].vote_id != vote_id) continue; voteWeight += votes[i].weight;` -/
def sumVoteWeightLoop (vote_id : String) (voteWeight : Int) :
    List VoteRecord → Int
  | [] => voteWeight
  | v :: rest =>
    if v.vote_id ≠ vote_id then sumVoteWeightLoop vote_id voteWeight rest
    else sumVoteWeightLoop vote_id (voteWeight + v.weight) rest

/-- `voteWeight` computed over the buffered vote records. -/
def sumVoteWeight (vote_id : String) (votes : List VoteRecord) : Int :=
  sumVoteWeightLoop vote_id 0 votes

/-- The ledger scan both paths run before signing: the first entry whose
`voteID` equals the chosen vote id, if any. -/
def findGovEntry (vote_id : String) :
    List CGovernanceEntry → Option CGovernanceEntry
  | [] => none
  | e :: rest => if vote_id = e.voteID then some e else findGovEntry vote_id rest

/-- `for(Proposals proposals : g_governance.proposals)`: the first buffered
proposal whose display name equals the selected row's name; when none
matches, the default-constructed `Proposals selectedProp;` (every field an
empty string). -/
def resolveSelectedProposal (name : String) : List Proposals → Proposals
  | [] => {}
  | p :: rest => if name = p.name then p else resolveSelectedProposal name rest

/-- The ambient state both cast paths read: the sync flag, the GUI unlock
and confirmation outcomes, the RPC unlock state, the governance client's
buffered proposals and (post-exchange) status flag and vote records, and
the wallet database's governance entries. -/
structure GovEnv where
  isInitialBlockDownload : Bool
  unlockOK : Bool
  confirmYes : Bool
  walletUnlocked : Bool
  proposals : List Proposals
  govEntries : List CGovernanceEntry
  statusOK : Bool
  votes : List VoteRecord
deriving DecidableEq, Repr

/-- Outcomes of `OffChainGovernance::vote`, one per `return` site. -/
inductive GuiVoteResult
  | notSynced
  | unlockCancelled
  | alreadyVoted (weight : Int)
  | cancelled
  | signError (e : SignErr)
  | requestFailed
  | success (weight : Int)
deriving DecidableEq, Repr

/-- Result, issued network requests (in order), and final ledger state of a
GUI cast attempt. -/
structure GuiOutcome where
  result : GuiVoteResult
  requests : List GovRequest
  ledger : List CGovernanceEntry
deriving DecidableEq, Repr

/-- `OffChainGovernance::vote` from the ledger check onward, for an already
resolved vote id: prior-vote check, confirmation dialog, address
collection, signing loop, `CAST_VOTE` request, status check, weight
aggregation, conditional ledger write, and the final `GET_PROPOSALS`
refresh. -/
def voteOnId (w : CWallet) (env : GovEnv) (vote_id decision : String) :
    GuiOutcome :=
  match findGovEntry vote_id env.govEntries with
  | some entry => ⟨.alreadyVoted entry.voteWeight, [], env.govEntries⟩
  | none =>
    if env.confirmYes = false then ⟨.cancelled, [], env.govEntries⟩
    else
      let votingAddresses := collectVotingAddressesGUI w
      match buildPostMessage w vote_id decision votingAddresses with
      | .error e => ⟨.signError e, [], env.govEntries⟩
      | .ok postMessage =>
        let castReq : GovRequest := ⟨.CAST_VOTE, postMessage⟩
        if env.statusOK = false then ⟨.requestFailed, [castReq], env.govEntries⟩
        else
          let voteWeight := sumVoteWeight vote_id env.votes
          let ledger :=
            if voteWeight ≠ 0 then env.govEntries ++ [⟨vote_id, voteWeight⟩]
            else env.govEntries
          ⟨.success voteWeight, [castReq, ⟨.GET_PROPOSALS, ""⟩], ledger⟩

/-- `OffChainGovernance::vote(decision)` for a valid selected row carrying
display name `selName`: sync gate, unlock request, then resolution of the
selected proposal by display name and the cast proper. -/
def OffChainGovernance.vote (w : CWallet) (env : GovEnv)
    (selName decision : String) : GuiOutcome :=
  if env.isInitialBlockDownload then ⟨.notSynced, [], env.govEntries⟩
  else if env.unlockOK = false then ⟨.unlockCancelled, [], env.govEntries⟩
  else voteOnId w env (resolveSelectedProposal selName env.proposals).vote_id decision

/-- Outcomes of the `postoffchainproposals` RPC, one per throw/return
site. -/
inductive RpcVoteResult
  | walletLocked
  | alreadyVoted (weight : Int)
  | signError (e : SignErr)
  | requestFailed
  | success (weight : Int)
deriving DecidableEq, Repr

/-- Whether an RPC outcome is the already-voted rejection. -/
def RpcVoteResult.isAlreadyVoted : RpcVoteResult → Bool
  | .alreadyVoted _ => true
  | _ => false

/-- Result, issued network requests (in order), and final ledger state of
an RPC cast attempt. -/
structure RpcOutcome where
  result : RpcVoteResult
  requests : List GovRequest
  ledger : List CGovernanceEntry
deriving DecidableEq, Repr

/-- The `postoffchainproposals` RPC body: `EnsureWalletIsUnlocked`,
prior-vote check, time-windowed address collection, signing loop,
`CAST_VOTE` request, status check, weight aggregation and conditional
ledger write.  There is no synchronization gate on this path. -/
def postoffchainproposals (w : CWallet) (env : GovEnv)
    (vote_id decision : String) (current_time : Int) : RpcOutcome :=
  if env.walletUnlocked = false then ⟨.walletLocked, [], env.govEntries⟩
  else
    match findGovEntry vote_id env.govEntries with
    | some entry => ⟨.alreadyVoted entry.voteWeight, [], env.govEntries⟩
    | none =>
      let votingAddresses := collectVotingAddressesRPC w current_time
      match buildPostMessage w vote_id decision votingAddresses with
      | .error e => ⟨.signError e, [], env.govEntries⟩
      | .ok postMessage =>
        let castReq : GovRequest := ⟨.CAST_VOTE, postMessage⟩
        if env.statusOK = false then ⟨.requestFailed, [castReq], env.govEntries⟩
        else
          let voteWeight := sumVoteWeight vote_id env.votes
          let ledger :=
            if voteWeight ≠ 0 then env.govEntries ++ [⟨vote_id, voteWeight⟩]
            else env.govEntries
          ⟨.success voteWeight, [castReq], ledger⟩

/-- Failure kind of the governance ledger write path. -/
inductive WriteErr
  | DuplicateVoteError
deriving DecidableEq, Repr

/-- `Exists(voteID)`: whether the ledger already holds an entry for the
vote identifier. -/
def GovernanceLedger.ExistsEntry (ledger : List CGovernanceEntry)
    (voteID : String) : Bool :=
  ledger.any (fun e => e.voteID = voteID)

/-- Modelled from the spec: the body of `CWalletDB::WriteGovernanceEntry`
is not among these sources (only its call sites are), and the spec's
GovernanceLedger contract (section 4.5) states that the write path itself
re-checks existence and fails with `DuplicateVoteError` when an entry for
the vote identifier is already present; otherwise the entry is appended. -/
def GovernanceLedger.Write (ledger : List CGovernanceEntry)
    (e : CGovernanceEntry) : Except WriteErr (List CGovernanceEntry) :=
  if GovernanceLedger.ExistsEntry ledger e.voteID then .error .DuplicateVoteError
  else .ok (ledger ++ [e])

/-- A concrete owned, non-script-hash script, for concrete evaluations. -/
def s1 : CScript := ⟨1, false⟩

/-- A concrete script-hash-family script. -/
def s2 : CScript := ⟨2, true⟩

/-- A concrete coinstake transaction at unix time 0 paying `s1`. -/
def stakeTx : CWalletTx := ⟨true, 0, [⟨s1⟩]⟩

/-- A wallet with no transactions whose capability functions all succeed. -/
def emptyWallet : CWallet where
  mapWallet := []
  isMine := fun _ => true
  extractDestination := fun _ => ⟨true, "addr1"⟩
  getKeyForDestination := fun _ => ⟨false, 1⟩
  getKey := fun _ => some ⟨1⟩
  signCompact := fun _ _ => some [1, 2, 3]
  encodeBase64 := fun _ => "U0lH"

/-- `emptyWallet` plus one coinstake transaction paying `s1`. -/
def stakeWallet : CWallet := { emptyWallet with mapWallet := [stakeTx] }

/-- `stakeWallet` whose key store cannot produce any private key. -/
def failWallet : CWallet := { stakeWallet with getKey := fun _ => none }

/-- A baseline environment: synced, unlocked, confirmed, empty buffers,
service status OK. -/
def baseEnv : GovEnv where
  isInitialBlockDownload := false
  unlockOK := true
  confirmYes := true
  walletUnlocked := true
  proposals := []
  govEntries := []
  statusOK := true
  votes := []

/-- A buffered proposal named A keyed on vote id v1. -/
def cexP1 : Proposals := { name := "A", vote_id := "v1" }

/-- A second buffered proposal, also named A, keyed on vote id v2. -/
def cexP2 : Proposals := { name := "A", vote_id := "v2" }

/-- A wallet holding one coinstake transaction with mixed output types:
the singlesig script `s1` twice and the script-hash script `s2`. -/
def mixedWallet : CWallet :=
  { emptyWallet with mapWallet := [⟨true, 0, [⟨s1⟩, ⟨s2⟩, ⟨s1⟩]⟩] }

theorem voutScan_mem (w : CWallet) (s : CScript) (vs : List TxOut) :
    ∀ acc : List CScript,
      s ∈ voutScan w acc vs ↔
        s ∈ acc ∨ ((∃ v ∈ vs, v.scriptPubKey = s) ∧ w.isMine s = true ∧
          s.isPayToScriptHashAny = false) := by
  induction vs with
  | nil => intro acc; simp [voutScan]
  | cons v rest ih =>
    intro acc
    by_cases h1 : w.isMine v.scriptPubKey = false
    · rw [show voutScan w acc (v :: rest) = voutScan w acc rest by
        simp [voutScan, h1]]
      rw [ih]
      constructor
      · rintro (h | ⟨⟨v', hv', rfl⟩, hm, hp⟩)
        · exact Or.inl h
        · exact Or.inr ⟨⟨v', List.mem_cons_of_mem _ hv', rfl⟩, hm, hp⟩
      · rintro (h | ⟨⟨v', hv', rfl⟩, hm, hp⟩)
        · exact Or.inl h
        · rcases List.mem_cons.mp hv' with rfl | hv''
          · exact absurd hm (by simp [h1])
          · exact Or.inr ⟨⟨v', hv'', rfl⟩, hm, hp⟩
    · by_cases h2 : v.scriptPubKey.isPayToScriptHashAny = true
      · rw [show voutScan w acc (v :: rest) = voutScan w acc rest by
          simp [voutScan, h1, h2]]
        rw [ih]
        constructor
        · rintro (h | ⟨⟨v', hv', rfl⟩, hm, hp⟩)
          · exact Or.inl h
          · exact Or.inr ⟨⟨v', List.mem_cons_of_mem _ hv', rfl⟩, hm, hp⟩
        · rintro (h | ⟨⟨v', hv', rfl⟩, hm, hp⟩)
          · exact Or.inl h
          · rcases List.mem_cons.mp hv' with rfl | hv''
            · exact absurd h2 (by simp [hp])
            · exact Or.inr ⟨⟨v', hv'', rfl⟩, hm, hp⟩
      · by_cases h3 : v.scriptPubKey ∈ acc
        · rw [show voutScan w acc (v :: rest) = voutScan w acc rest by
            simp [voutScan, h1, h2, h3]]
          rw [ih]
          constructor
          · rintro (h | ⟨⟨v', hv', rfl⟩, hm, hp⟩)
            · exact Or.inl h
            · exact Or.inr ⟨⟨v', List.mem_cons_of_mem _ hv', rfl⟩, hm, hp⟩
          · rintro (h | ⟨⟨v', hv', rfl⟩, hm, hp⟩)
            · exact Or.inl h
            · rcases List.mem_cons.mp hv' with rfl | hv''
              · exact Or.inl h3
              · exact Or.inr ⟨⟨v', hv'', rfl⟩, hm, hp⟩
        · rw [show voutScan w acc (v :: rest) =
              voutScan w (acc ++ [v.scriptPubKey]) rest by
            simp [voutScan, h1, h2, h3]]
          rw [ih]
          constructor
          · rintro (h | ⟨⟨v', hv', rfl⟩, hm, hp⟩)
            · rcases List.mem_append.mp h with h | h
              · exact Or.inl h
              · rcases List.mem_singleton.mp h with rfl
                refine Or.inr ⟨⟨v, List.mem_cons_self _ _, rfl⟩, ?_, ?_⟩
                · simpa using h1
                · simpa using h2
            · exact Or.inr ⟨⟨v', List.mem_cons_of_mem _ hv', rfl⟩, hm, hp⟩
          · rintro (h | ⟨⟨v', hv', rfl⟩, hm, hp⟩)
            · exact Or.inl (List.mem_append.mpr (Or.inl h))
            · rcases List.mem_cons.mp hv' with rfl | hv''
              · exact Or.inl (List.mem_append.mpr (Or.inr (List.mem_singleton.mpr rfl)))
              · exact Or.inr ⟨⟨v', hv'', rfl⟩, hm, hp⟩

theorem voutScan_nodup (w : CWallet) (vs : List TxOut) :
    ∀ acc : List CScript, acc.Nodup → (voutScan w acc vs).Nodup := by
  induction vs with
  | nil => intro acc h; simpa [voutScan] using h
  | cons v rest ih =>
    intro acc h
    by_cases h1 : w.isMine v.scriptPubKey = false
    · rw [show voutScan w acc (v :: rest) = voutScan w acc rest by
        simp [voutScan, h1]]
      exact ih acc h
    · by_cases h2 : v.scriptPubKey.isPayToScriptHashAny = true
      · rw [show voutScan w acc (v :: rest) = voutScan w acc rest by
          simp [voutScan, h1, h2]]
        exact ih acc h
      · by_cases h3 : v.scriptPubKey ∈ acc
        · rw [show voutScan w acc (v :: rest) = voutScan w acc rest by
            simp [voutScan, h1, h2, h3]]
          exact ih acc h
        · rw [show voutScan w acc (v :: rest) =
              voutScan w (acc ++ [v.scriptPubKey]) rest by
            simp [voutScan, h1, h2, h3]]
          exact ih _ (by simp [List.nodup_append, h, h3])

theorem txScanRPC_mem (w : CWallet) (t : Int) (s : CScript)
    (txs : List CWalletTx) :
    ∀ acc : List CScript,
      s ∈ txScanRPC w t acc txs ↔
        s ∈ acc ∨ ∃ wtx ∈ txs, wtx.isCoinStake = true ∧
          ¬(wtx.txTime < t - vote_timeframe) ∧
          (∃ v ∈ wtx.vout, v.scriptPubKey = s) ∧ w.isMine s = true ∧
          s.isPayToScriptHashAny = false := by
  induction txs with
  | nil => intro acc; simp [txScanRPC]
  | cons wtx rest ih =>
    intro acc
    by_cases hskip : ¬wtx.isCoinStake = true ∨ wtx.txTime < t - vote_timeframe
    · rw [show txScanRPC w t acc (wtx :: rest) = txScanRPC w t acc rest by
        simp only [txScanRPC]; rw [if_pos hskip]]
      rw [ih]
      constructor
      · rintro (h | ⟨x, hx, hrest⟩)
        · exact Or.inl h
        · exact Or.inr ⟨x, List.mem_cons_of_mem _ hx, hrest⟩
      · rintro (h | ⟨x, hx, hcs, hti, hrest⟩)
        · exact Or.inl h
        · rcases List.mem_cons.mp hx with rfl | hx'
          · exact absurd hskip (by simp [hcs, hti])
          · exact Or.inr ⟨x, hx', hcs, hti, hrest⟩
    · push_neg at hskip
      rw [show txScanRPC w t acc (wtx :: rest) =
          txScanRPC w t (voutScan w acc wtx.vout) rest by
        simp only [txScanRPC]
        rw [if_neg (by push_neg; exact hskip)]]
      rw [ih, voutScan_mem]
      constructor
      · rintro ((h | ⟨hv, hm, hp⟩) | ⟨x, hx, hrest⟩)
        · exact Or.inl h
        · exact Or.inr ⟨wtx, List.mem_cons_self _ _, hskip.1, not_lt.mpr hskip.2, hv, hm, hp⟩
        · exact Or.inr ⟨x, List.mem_cons_of_mem _ hx, hrest⟩
      · rintro (h | ⟨x, hx, hcs, hti, hvv, hm, hp⟩)
        · exact Or.inl (Or.inl h)
        · rcases List.mem_cons.mp hx with rfl | hx'
          · exact Or.inl (Or.inr ⟨hvv, hm, hp⟩)
          · exact Or.inr ⟨x, hx', hcs, hti, hvv, hm, hp⟩

theorem txScanGUI_mem (w : CWallet) (s : CScript) (txs : List CWalletTx) :
    ∀ acc : List CScript,
      s ∈ txScanGUI w acc txs ↔
        s ∈ acc ∨ ∃ wtx ∈ txs, wtx.isCoinStake = true ∧
          (∃ v ∈ wtx.vout, v.scriptPubKey = s) ∧ w.isMine s = true ∧
          s.isPayToScriptHashAny = false := by
  induction txs with
  | nil => intro acc; simp [txScanGUI]
  | cons wtx rest ih =>
    intro acc
    by_cases hcs : wtx.isCoinStake = true
    · rw [show txScanGUI w acc (wtx :: rest) =
          txScanGUI w (voutScan w acc wtx.vout) rest by
        simp [txScanGUI, hcs]]
      rw [ih, voutScan_mem]
      constructor
      · rintro ((h | ⟨hv, hm, hp⟩) | ⟨x, hx, hrest⟩)
        · exact Or.inl h
        · exact Or.inr ⟨wtx, List.mem_cons_self _ _, hcs, hv, hm, hp⟩
        · exact Or.inr ⟨x, List.mem_cons_of_mem _ hx, hrest⟩
      · rintro (h | ⟨x, hx, hcs', hvv, hm, hp⟩)
        · exact Or.inl (Or.inl h)
        · rcases List.mem_cons.mp hx with rfl | hx'
          · exact Or.inl (Or.inr ⟨hvv, hm, hp⟩)
          · exact Or.inr ⟨x, hx', hcs', hvv, hm, hp⟩
    · rw [show txScanGUI w acc (wtx :: rest) = txScanGUI w acc rest by
        simp [txScanGUI, hcs]]
      rw [ih]
      constructor
      · rintro (h | ⟨x, hx, hrest⟩)
        · exact Or.inl h
        · exact Or.inr ⟨x, List.mem_cons_of_mem _ hx, hrest⟩
      · rintro (h | ⟨x, hx, hcs', hrest⟩)
        · exact Or.inl h
        · rcases List.mem_cons.mp hx with rfl | hx'
          · exact absurd hcs' hcs
          · exact Or.inr ⟨x, hx', hcs', hrest⟩

theorem txScanRPC_nodup (w : CWallet) (t : Int) (txs : List CWalletTx) :
    ∀ acc : List CScript, acc.Nodup → (txScanRPC w t acc txs).Nodup := by
  induction txs with
  | nil => intro acc h; simpa [txScanRPC] using h
  | cons wtx rest ih =>
    intro acc h
    simp only [txScanRPC]
    split
    · exact ih acc h
    · exact ih _ (voutScan_nodup w wtx.vout acc h)

theorem txScanGUI_nodup (w : CWallet) (txs : List CWalletTx) :
    ∀ acc : List CScript, acc.Nodup → (txScanGUI w acc txs).Nodup := by
  induction txs with
  | nil => intro acc h; simpa [txScanGUI] using h
  | cons wtx rest ih =>
    intro acc h
    simp only [txScanGUI]
    split
    · exact ih acc h
    · exact ih _ (voutScan_nodup w wtx.vout acc h)

theorem findGovEntry_none_iff (vid : String) (l : List CGovernanceEntry) :
    findGovEntry vid l = none ↔ ∀ e ∈ l, e.voteID ≠ vid := by
  induction l with
  | nil => simp [findGovEntry]
  | cons e rest ih =>
    by_cases h : vid = e.voteID
    · simp [findGovEntry, h]
    · simp only [findGovEntry, if_neg h, ih, List.mem_cons]
      constructor
      · rintro hall x (rfl | hx)
        · exact fun hc => h hc.symm
        · exact hall x hx
      · intro hall x hx
        exact hall x (Or.inr hx)

theorem findGovEntry_append_last (vid : String) (l : List CGovernanceEntry)
    (e : CGovernanceEntry) (h : findGovEntry vid l = none) (he : vid = e.voteID) :
    findGovEntry vid (l ++ [e]) = some e := by
  induction l with
  | nil => simp [findGovEntry, he]
  | cons x rest ih =>
    by_cases hx : vid = x.voteID
    · simp [findGovEntry, hx] at h
    · simp only [findGovEntry, if_neg hx] at h ⊢
      exact ih h

theorem rpc_alreadyVoted_guard (w : CWallet) (env : GovEnv)
    (vid dec : String) (t : Int) (e : CGovernanceEntry)
    (hu : env.walletUnlocked = true)
    (hfind : findGovEntry vid env.govEntries = some e) :
    postoffchainproposals w env vid dec t =
      ⟨.alreadyVoted e.voteWeight, [], env.govEntries⟩ := by
  simp [postoffchainproposals, hu, hfind]

theorem gui_alreadyVoted_guard (w : CWallet) (env : GovEnv)
    (name dec : String) (e : CGovernanceEntry)
    (hibd : env.isInitialBlockDownload = false)
    (hun : env.unlockOK = true)
    (hfind : findGovEntry (resolveSelectedProposal name env.proposals).vote_id
      env.govEntries = some e) :
    OffChainGovernance.vote w env name dec =
      ⟨.alreadyVoted e.voteWeight, [], env.govEntries⟩ := by
  simp [OffChainGovernance.vote, voteOnId, hibd, hun, hfind]

theorem rpc_success_state (w : CWallet) (env : GovEnv)
    (vid dec : String) (t : Int) (wgt : Int)
    (h : (postoffchainproposals w env vid dec t).result = .success wgt) :
    env.walletUnlocked = true ∧ findGovEntry vid env.govEntries = none ∧
    env.statusOK = true ∧ wgt = sumVoteWeight vid env.votes ∧
    (postoffchainproposals w env vid dec t).ledger =
      (if wgt ≠ 0 then env.govEntries ++ [⟨vid, wgt⟩] else env.govEntries) := by
  by_cases hu : env.walletUnlocked = false
  · simp [postoffchainproposals, hu] at h
  · cases hfind : findGovEntry vid env.govEntries with
    | some e => simp [postoffchainproposals, hu, hfind] at h
    | none =>
      cases hpm : buildPostMessage w vid dec (collectVotingAddressesRPC w t) with
      | error e => simp [postoffchainproposals, hu, hfind, hpm] at h
      | ok pm =>
        by_cases hs : env.statusOK = false
        · simp [postoffchainproposals, hu, hfind, hpm, hs] at h
        · have hw : wgt = sumVoteWeight vid env.votes := by
            have h' := h
            simp [postoffchainproposals, hu, hfind, hpm, hs] at h'
            exact h'.symm
          refine ⟨by simpa using hu, rfl, by simpa using hs, hw, ?_⟩
          simp [postoffchainproposals, hu, hfind, hpm, hs, hw]

theorem rpc_ledger_cases (w : CWallet) (env : GovEnv)
    (vid dec : String) (t : Int) :
    (postoffchainproposals w env vid dec t).ledger = env.govEntries ∨
    (env.statusOK = true ∧ sumVoteWeight vid env.votes ≠ 0 ∧
     findGovEntry vid env.govEntries = none ∧
     (postoffchainproposals w env vid dec t).ledger =
       env.govEntries ++ [⟨vid, sumVoteWeight vid env.votes⟩]) := by
  by_cases hu : env.walletUnlocked = false
  · exact Or.inl (by simp [postoffchainproposals, hu])
  · cases hfind : findGovEntry vid env.govEntries with
    | some e => exact Or.inl (by simp [postoffchainproposals, hu, hfind])
    | none =>
      cases hpm : buildPostMessage w vid dec (collectVotingAddressesRPC w t) with
      | error e => exact Or.inl (by simp [postoffchainproposals, hu, hfind, hpm])
      | ok pm =>
        by_cases hs : env.statusOK = false
        · exact Or.inl (by simp [postoffchainproposals, hu, hfind, hpm, hs])
        · by_cases hz : sumVoteWeight vid env.votes = 0
          · exact Or.inl (by simp [postoffchainproposals, hu, hfind, hpm, hs, hz])
          · refine Or.inr ⟨by simpa using hs, hz, rfl, ?_⟩
            simp [postoffchainproposals, hu, hfind, hpm, hs, hz]

theorem voteOnId_ledger_cases (w : CWallet) (env : GovEnv)
    (vid dec : String) :
    (voteOnId w env vid dec).ledger = env.govEntries ∨
    (env.statusOK = true ∧ sumVoteWeight vid env.votes ≠ 0 ∧
     findGovEntry vid env.govEntries = none ∧
     (voteOnId w env vid dec).ledger =
       env.govEntries ++ [⟨vid, sumVoteWeight vid env.votes⟩]) := by
  cases hfind : findGovEntry vid env.govEntries with
  | some e => exact Or.inl (by simp [voteOnId, hfind])
  | none =>
    by_cases hc : env.confirmYes = false
    · exact Or.inl (by simp [voteOnId, hfind, hc])
    · cases hpm : buildPostMessage w vid dec (collectVotingAddressesGUI w) with
      | error e => exact Or.inl (by simp [voteOnId, hfind, hc, hpm])
      | ok pm =>
        by_cases hs : env.statusOK = false
        · exact Or.inl (by simp [voteOnId, hfind, hc, hpm, hs])
        · by_cases hz : sumVoteWeight vid env.votes = 0
          · exact Or.inl (by simp [voteOnId, hfind, hc, hpm, hs, hz])
          · refine Or.inr ⟨by simpa using hs, hz, rfl, ?_⟩
            simp [voteOnId, hfind, hc, hpm, hs, hz]

theorem gui_ledger_cases (w : CWallet) (env : GovEnv) (name dec : String) :
    (OffChainGovernance.vote w env name dec).ledger = env.govEntries ∨
    (env.statusOK = true ∧
     sumVoteWeight (resolveSelectedProposal name env.proposals).vote_id env.votes ≠ 0 ∧
     findGovEntry (resolveSelectedProposal name env.proposals).vote_id env.govEntries = none ∧
     (OffChainGovernance.vote w env name dec).ledger = env.govEntries ++
       [⟨(resolveSelectedProposal name env.proposals).vote_id,
         sumVoteWeight (resolveSelectedProposal name env.proposals).vote_id env.votes⟩]) := by
  by_cases hibd : env.isInitialBlockDownload = true
  · exact Or.inl (by simp [OffChainGovernance.vote, hibd])
  · by_cases hun : env.unlockOK = false
    · exact Or.inl (by simp [OffChainGovernance.vote, hibd, hun])
    · have : OffChainGovernance.vote w env name dec =
        voteOnId w env (resolveSelectedProposal name env.proposals).vote_id dec := by
        simp [OffChainGovernance.vote, hibd, hun]
      rw [this]
      exact voteOnId_ledger_cases w env _ dec

theorem rpc_not_alreadyVoted_of_no_entry (w : CWallet) (env : GovEnv)
    (vid dec : String) (t : Int)
    (h : findGovEntry vid env.govEntries = none) :
    (postoffchainproposals w env vid dec t).result.isAlreadyVoted = false := by
  by_cases hu : env.walletUnlocked = false
  · simp [postoffchainproposals, hu, RpcVoteResult.isAlreadyVoted]
  · cases hpm : buildPostMessage w vid dec (collectVotingAddressesRPC w t) with
    | error e => simp [postoffchainproposals, hu, h, hpm, RpcVoteResult.isAlreadyVoted]
    | ok pm =>
      by_cases hs : env.statusOK = false
      · simp [postoffchainproposals, hu, h, hpm, hs, RpcVoteResult.isAlreadyVoted]
      · simp [postoffchainproposals, hu, h, hpm, hs, RpcVoteResult.isAlreadyVoted]

theorem sumVoteWeightLoop_acc (vid : String) (votes : List VoteRecord) :
    ∀ acc : Int,
      sumVoteWeightLoop vid acc votes = acc + sumVoteWeightLoop vid 0 votes := by
  induction votes with
  | nil => intro acc; simp [sumVoteWeightLoop]
  | cons v rest ih =>
    intro acc
    by_cases h : v.vote_id ≠ vid
    · simp only [sumVoteWeightLoop, if_pos h]
      exact ih acc
    · simp only [sumVoteWeightLoop, if_neg h]
      rw [ih (acc + v.weight), ih (0 + v.weight)]
      ring

theorem sumVoteWeight_cons (vid : String) (v : VoteRecord)
    (rest : List VoteRecord) :
    sumVoteWeight vid (v :: rest) =
      (if v.vote_id = vid then v.weight else 0) + sumVoteWeight vid rest := by
  by_cases h : v.vote_id = vid
  · simp only [sumVoteWeight, sumVoteWeightLoop, if_neg (not_not_intro h), if_pos h]
    rw [sumVoteWeightLoop_acc]
    ring
  · simp only [sumVoteWeight, sumVoteWeightLoop, if_pos h, if_neg h]
    ring

theorem signBallotsLoop_error_of_mem (w : CWallet) (vid dec : String)
    (addrs : List CScript) :
    ∀ id : Nat,
      (∃ a ∈ addrs, ∃ e, signOneBallot w vid dec a = .error e) →
      ∃ e, signBallotsLoop w vid dec id addrs = .error e := by
  induction addrs with
  | nil => intro id h; simp at h
  | cons a rest ih =>
    intro id h
    cases hsa : signOneBallot w vid dec a with
    | error e => exact ⟨e, by simp [signBallotsLoop, hsa]⟩
    | ok parts =>
      obtain ⟨x, hx, e, hxe⟩ := h
      rcases List.mem_cons.mp hx with rfl | hx'
      · rw [hsa] at hxe
        cases hxe
      · obtain ⟨e', he'⟩ := ih (id + 1) ⟨x, hx', e, hxe⟩
        exact ⟨e', by simp [signBallotsLoop, hsa, he']⟩

theorem buildPostMessage_error (w : CWallet) (vid dec : String)
    (addrs : List CScript) (e : SignErr)
    (h : signBallotsLoop w vid dec 0 addrs = .error e) :
    buildPostMessage w vid dec addrs = .error e := by
  simp [buildPostMessage, h]

theorem rpc_signError_guard (w : CWallet) (env : GovEnv)
    (vid dec : String) (t : Int) (e : SignErr)
    (hu : env.walletUnlocked = true)
    (hfind : findGovEntry vid env.govEntries = none)
    (hpm : buildPostMessage w vid dec (collectVotingAddressesRPC w t) = .error e) :
    postoffchainproposals w env vid dec t = ⟨.signError e, [], env.govEntries⟩ := by
  simp [postoffchainproposals, hu, hfind, hpm]

theorem gui_signError_guard (w : CWallet) (env : GovEnv)
    (name dec : String) (e : SignErr)
    (hibd : env.isInitialBlockDownload = false)
    (hun : env.unlockOK = true)
    (hfind : findGovEntry (resolveSelectedProposal name env.proposals).vote_id
      env.govEntries = none)
    (hc : env.confirmYes = true)
    (hpm : buildPostMessage w (resolveSelectedProposal name env.proposals).vote_id
      dec (collectVotingAddressesGUI w) = .error e) :
    OffChainGovernance.vote w env name dec = ⟨.signError e, [], env.govEntries⟩ := by
  simp [OffChainGovernance.vote, voteOnId, hibd, hun, hfind, hc, hpm]

/-- C3 (confirmed; write path modelled from the spec): the governance
ledger's write operation re-checks existence at write time and rejects with
DuplicateVoteError whenever an entry for the same vote identifier is
present then, even though an earlier existence check (against the state the
caller saw before signing) had come back clear. -/
theorem governanceLedger_write_rechecks_existence
    (earlier current : List CGovernanceEntry) (e : CGovernanceEntry)
    (h1 : GovernanceLedger.ExistsEntry earlier e.voteID = false)
    (h2 : GovernanceLedger.ExistsEntry current e.voteID = true) :
    GovernanceLedger.Write current e = .error .DuplicateVoteError := by
  simp [GovernanceLedger.Write, h2]

/-- Concrete run of the duplicate-write rejection: the earlier check on an
empty ledger passes, the ledger then gains an entry for p1, and the write
of a second p1 entry is rejected. -/
theorem governanceLedger_write_rechecks_existence_witness :
    GovernanceLedger.ExistsEntry [] "p1" = false ∧
    GovernanceLedger.ExistsEntry [⟨"p1", 5⟩] "p1" = true ∧
    GovernanceLedger.Write [⟨"p1", 5⟩] ⟨"p1", 9⟩ = .error .DuplicateVoteError := by
  refine ⟨by decide, by decide, ?_⟩
  exact governanceLedger_write_rechecks_existence [] [⟨"p1", 5⟩] ⟨"p1", 9⟩
    (by decide) (by decide)

/-- C6 (confirmed): whenever a ballot is successfully signed, the message
is the exact concatenation vote_id ++ "_" ++ decision and the compact
signature is taken over the hash whose preimage is the domain tag
`strMessageMagic` followed by that message; for vote id abc and decision 1
the message is exactly the byte sequence abc_1. -/
theorem ballot_message_framing_and_digest (w : CWallet) (vid dec : String)
    (a : CScript) (key : CKey) (sig : List Nat)
    (h1 : (w.extractDestination a).valid = true)
    (h2 : (w.getKeyForDestination (w.extractDestination a)).isNull = false)
    (h3 : w.getKey (w.getKeyForDestination (w.extractDestination a)) = some key)
    (h4 : w.signCompact key ⟨[strMessageMagic, strMessageFor vid dec]⟩ = some sig) :
    signOneBallot w vid dec a = .ok ⟨(w.extractDestination a).addr, w.encodeBase64 sig⟩ ∧
    strMessageFor vid dec = vid ++ "_" ++ dec ∧
    strMessageFor "abc" "1" = "abc_1" := by
  refine ⟨?_, rfl, by decide⟩
  simp [signOneBallot, h1, h2, h3, CHashWriter.init, CHashWriter.push,
    CHashWriter.GetHash, h4]

/-- Concrete signed ballot: with a wallet whose capabilities all succeed,
the ballot for message abc_1 carries the encoded address and the
base64-rendered signature produced over the domain-separated digest. -/
theorem ballot_message_framing_and_digest_witness :
    signOneBallot emptyWallet "abc" "1" s1 = .ok ⟨"addr1", "U0lH"⟩ ∧
    strMessageFor "abc" "1" = "abc_1" := by
  refine ⟨?_, ?_⟩
  · exact (ballot_message_framing_and_digest emptyWallet "abc" "1" s1 ⟨1⟩
      [1, 2, 3] rfl rfl rfl rfl).1
  · exact (ballot_message_framing_and_digest emptyWallet "abc" "1" s1 ⟨1⟩
      [1, 2, 3] rfl rfl rfl rfl).2.2

/-- C7 (confirmed): on both cast paths the collected voting addresses never
contain a script of a script-hash family, and duplicates across
transactions collapse: the collection has no duplicate entries. -/
theorem votingAddresses_no_scripthash_and_nodup :
    (∀ (w : CWallet) (t : Int) (s : CScript),
      s ∈ collectVotingAddressesRPC w t → s.isPayToScriptHashAny = false) ∧
    (∀ (w : CWallet) (s : CScript),
      s ∈ collectVotingAddressesGUI w → s.isPayToScriptHashAny = false) ∧
    (∀ (w : CWallet) (t : Int), (collectVotingAddressesRPC w t).Nodup) ∧
    (∀ w : CWallet, (collectVotingAddressesGUI w).Nodup) := by
  refine ⟨?_, ?_, ?_, ?_⟩
  · intro w t s hs
    rcases (txScanRPC_mem w t s w.mapWallet []).mp hs with h | ⟨wtx, _, _, _, _, _, hp⟩
    · exact absurd h (List.not_mem_nil s)
    · exact hp
  · intro w s hs
    rcases (txScanGUI_mem w s w.mapWallet []).mp hs with h | ⟨wtx, _, _, _, _, hp⟩
    · exact absurd h (List.not_mem_nil s)
    · exact hp
  · intro w t
    exact txScanRPC_nodup w t w.mapWallet [] List.nodup_nil
  · intro w
    exact txScanGUI_nodup w w.mapWallet [] List.nodup_nil

/-- Concrete mixed wallet: the coinstake transaction pays s1, the
script-hash script s2, and s1 again; the collection keeps exactly one copy
of s1, drops s2, and is duplicate-free. -/
theorem votingAddresses_no_scripthash_and_nodup_witness :
    s1 ∈ collectVotingAddressesGUI mixedWallet ∧
    s1.isPayToScriptHashAny = false ∧
    (collectVotingAddressesGUI mixedWallet).Nodup ∧
    collectVotingAddressesGUI mixedWallet = [s1] := by
  refine ⟨by decide, ?_, ?_, by decide⟩
  · exact votingAddresses_no_scripthash_and_nodup.2.1 mixedWallet s1 (by decide)
  · exact votingAddresses_no_scripthash_and_nodup.2.2.2 mixedWallet

theorem sumVoteWeight_eq_filter_sum (vid : String) (votes : List VoteRecord) :
    sumVoteWeight vid votes =
      ((votes.filter (fun v => v.vote_id == vid)).map VoteRecord.weight).sum := by
  induction votes with
  | nil => rfl
  | cons v rest ih =>
    rw [sumVoteWeight_cons, ih]
    by_cases h : v.vote_id = vid
    · simp [List.filter_cons, h]
    · simp [List.filter_cons, h]

/-- C8 (confirmed): the aggregated weight is the sum of the weight fields
of exactly the buffered records whose vote identifier matches; it is zero
when nothing matches; and on the spec's example records it is 15. -/
theorem sumVoteWeight_matches_filter_sum (vid : String)
    (votes : List VoteRecord) :
    sumVoteWeight vid votes =
      ((votes.filter (fun v => v.vote_id == vid)).map VoteRecord.weight).sum ∧
    ((∀ v ∈ votes, v.vote_id ≠ vid) → sumVoteWeight vid votes = 0) ∧
    sumVoteWeight "p1" [⟨"p1", "a", 10⟩, ⟨"p1", "b", 5⟩, ⟨"p2", "c", 100⟩] = 15 := by
  refine ⟨sumVoteWeight_eq_filter_sum vid votes, ?_, by decide⟩
  intro hall
  rw [sumVoteWeight_eq_filter_sum]
  have hnil : votes.filter (fun v => v.vote_id == vid) = [] := by
    rw [List.filter_eq_nil]
    intro v hv
    simpa using hall v hv
  rw [hnil]
  rfl

/-- Concrete aggregation: on the example records no p3 record matches, so
the aggregate for p3 is zero, and the aggregate for p1 is 15. -/
theorem sumVoteWeight_matches_filter_sum_witness :
    sumVoteWeight "p3" [⟨"p1", "a", 10⟩, ⟨"p1", "b", 5⟩, ⟨"p2", "c", 100⟩] = 0 ∧
    sumVoteWeight "p1" [⟨"p1", "a", 10⟩, ⟨"p1", "b", 5⟩, ⟨"p2", "c", 100⟩] = 15 := by
  refine ⟨?_, ?_⟩
  · exact (sumVoteWeight_matches_filter_sum "p3"
      [⟨"p1", "a", 10⟩, ⟨"p1", "b", 5⟩, ⟨"p2", "c", 100⟩]).2.1 (by decide)
  · exact (sumVoteWeight_matches_filter_sum "p1"
      [⟨"p1", "a", 10⟩, ⟨"p1", "b", 5⟩, ⟨"p2", "c", 100⟩]).2.2

/-- C1 (counterexample): two successive RPC cast calls on the same vote
identifier where the first succeeds with zero counted weight: the first
call writes nothing, so the second call is NOT rejected as already-voted
and performs a network request — refuting the unconditional form of the
claim. -/
theorem castVote_second_call_not_alreadyVoted_cex :
    (postoffchainproposals emptyWallet baseEnv "p1" "1" 0).result = .success 0 ∧
    (postoffchainproposals emptyWallet
      { baseEnv with govEntries :=
          (postoffchainproposals emptyWallet baseEnv "p1" "1" 0).ledger }
      "p1" "1" 0).result.isAlreadyVoted = false ∧
    (postoffchainproposals emptyWallet
      { baseEnv with govEntries :=
          (postoffchainproposals emptyWallet baseEnv "p1" "1" 0).ledger }
      "p1" "1" 0).requests = [⟨.CAST_VOTE, "[]"⟩] := by
  refine ⟨by decide, by decide, by decide⟩

/-- C1 (amended): when a governance entry for the chosen vote identifier
already exists, both cast paths fail with the already-voted outcome
carrying the recorded weight and issue no network request; and when a
first cast succeeds with NONZERO weight (hence persists an entry), a
second cast on the same identifier is rejected as already-voted with that
weight and performs no network request. -/
theorem castVote_prior_entry_alreadyVoted :
    (∀ (w : CWallet) (env : GovEnv) (vid dec : String) (t : Int)
        (e : CGovernanceEntry),
      env.walletUnlocked = true →
      findGovEntry vid env.govEntries = some e →
      postoffchainproposals w env vid dec t =
        ⟨.alreadyVoted e.voteWeight, [], env.govEntries⟩) ∧
    (∀ (w : CWallet) (env : GovEnv) (name dec : String) (e : CGovernanceEntry),
      env.isInitialBlockDownload = false → env.unlockOK = true →
      findGovEntry (resolveSelectedProposal name env.proposals).vote_id
        env.govEntries = some e →
      OffChainGovernance.vote w env name dec =
        ⟨.alreadyVoted e.voteWeight, [], env.govEntries⟩) ∧
    (∀ (w : CWallet) (env : GovEnv) (vid dec : String) (t : Int) (wgt : Int),
      (postoffchainproposals w env vid dec t).result = .success wgt →
      wgt ≠ 0 →
      postoffchainproposals w
        { env with govEntries := (postoffchainproposals w env vid dec t).ledger }
        vid dec t =
        ⟨.alreadyVoted wgt, [], (postoffchainproposals w env vid dec t).ledger⟩) := by
  refine ⟨fun w env vid dec t e hu hf =>
      rpc_alreadyVoted_guard w env vid dec t e hu hf,
    fun w env name dec e h1 h2 h3 =>
      gui_alreadyVoted_guard w env name dec e h1 h2 h3, ?_⟩
  intro w env vid dec t wgt h1 h2
  obtain ⟨hu, hfind, hsOK, hw, hled⟩ := rpc_success_state w env vid dec t wgt h1
  rw [if_pos h2] at hled
  have hfind2 : findGovEntry vid (postoffchainproposals w env vid dec t).ledger =
      some ⟨vid, wgt⟩ := by
    rw [hled]
    exact findGovEntry_append_last vid env.govEntries ⟨vid, wgt⟩ hfind rfl
  exact rpc_alreadyVoted_guard w
    { env with govEntries := (postoffchainproposals w env vid dec t).ledger }
    vid dec t ⟨vid, wgt⟩ hu hfind2

/-- Concrete runs of the three already-voted guards: a prior RPC entry, a
prior GUI entry under the selected proposal's vote id, and a second cast
after a first cast that counted weight 7. -/
theorem castVote_prior_entry_alreadyVoted_witness :
    postoffchainproposals emptyWallet { baseEnv with govEntries := [⟨"p1", 5⟩] }
      "p1" "1" 0 = ⟨.alreadyVoted 5, [], [⟨"p1", 5⟩]⟩ ∧
    OffChainGovernance.vote emptyWallet
      { baseEnv with proposals := [cexP1], govEntries := [⟨"v1", 5⟩] } "A" "1" =
      ⟨.alreadyVoted 5, [], [⟨"v1", 5⟩]⟩ ∧
    postoffchainproposals emptyWallet
      { { baseEnv with votes := [⟨"p1", "addr1", 7⟩] } with govEntries :=
          (postoffchainproposals emptyWallet
            { baseEnv with votes := [⟨"p1", "addr1", 7⟩] } "p1" "1" 0).ledger }
      "p1" "1" 0 =
      ⟨.alreadyVoted 7, [],
        (postoffchainproposals emptyWallet
          { baseEnv with votes := [⟨"p1", "addr1", 7⟩] } "p1" "1" 0).ledger⟩ := by
  refine ⟨?_, ?_, ?_⟩
  · exact castVote_prior_entry_alreadyVoted.1 emptyWallet
      { baseEnv with govEntries := [⟨"p1", 5⟩] } "p1" "1" 0 ⟨"p1", 5⟩ rfl (by decide)
  · exact castVote_prior_entry_alreadyVoted.2.1 emptyWallet
      { baseEnv with proposals := [cexP1], govEntries := [⟨"v1", 5⟩] } "A" "1"
      ⟨"v1", 5⟩ rfl rfl (by decide)
  · exact castVote_prior_entry_alreadyVoted.2.2 emptyWallet
      { baseEnv with votes := [⟨"p1", "addr1", 7⟩] } "p1" "1" 0 7
      (by decide) (by decide)

/-- C2 (confirmed): on both cast paths the ledger is written only when the
exchange reported success and the aggregated weight is nonzero (and then
exactly the one new entry is appended); the all-entries-nonzero invariant
is preserved; and a cast with zero counted weight leaves the ledger
unchanged, so a repeat cast on that identifier is not reported as
already-voted. -/
theorem govEntry_written_only_on_success_nonzero :
    (∀ (w : CWallet) (env : GovEnv) (vid dec : String) (t : Int),
      (postoffchainproposals w env vid dec t).ledger = env.govEntries ∨
      (env.statusOK = true ∧ sumVoteWeight vid env.votes ≠ 0 ∧
       (postoffchainproposals w env vid dec t).ledger =
         env.govEntries ++ [⟨vid, sumVoteWeight vid env.votes⟩])) ∧
    (∀ (w : CWallet) (env : GovEnv) (name dec : String),
      (OffChainGovernance.vote w env name dec).ledger = env.govEntries ∨
      (env.statusOK = true ∧
       sumVoteWeight (resolveSelectedProposal name env.proposals).vote_id
         env.votes ≠ 0 ∧
       (OffChainGovernance.vote w env name dec).ledger = env.govEntries ++
         [⟨(resolveSelectedProposal name env.proposals).vote_id,
           sumVoteWeight (resolveSelectedProposal name env.proposals).vote_id
             env.votes⟩])) ∧
    (∀ (w : CWallet) (env : GovEnv) (vid dec : String) (t : Int),
      (∀ e ∈ env.govEntries, e.voteWeight ≠ 0) →
      ∀ e ∈ (postoffchainproposals w env vid dec t).ledger, e.voteWeight ≠ 0) ∧
    (∀ (w : CWallet) (env : GovEnv) (name dec : String),
      (∀ e ∈ env.govEntries, e.voteWeight ≠ 0) →
      ∀ e ∈ (OffChainGovernance.vote w env name dec).ledger, e.voteWeight ≠ 0) ∧
    (∀ (w : CWallet) (env : GovEnv) (vid dec : String) (t : Int),
      findGovEntry vid env.govEntries = none →
      sumVoteWeight vid env.votes = 0 →
      (postoffchainproposals w env vid dec t).ledger = env.govEntries ∧
      (postoffchainproposals w
        { env with govEntries := (postoffchainproposals w env vid dec t).ledger }
        vid dec t).result.isAlreadyVoted = false) := by
  refine ⟨?_, ?_, ?_, ?_, ?_⟩
  · intro w env vid dec t
    rcases rpc_ledger_cases w env vid dec t with h | ⟨hs, hz, _, hl⟩
    · exact Or.inl h
    · exact Or.inr ⟨hs, hz, hl⟩
  · intro w env name dec
    rcases gui_ledger_cases w env name dec with h | ⟨hs, hz, _, hl⟩
    · exact Or.inl h
    · exact Or.inr ⟨hs, hz, hl⟩
  · intro w env vid dec t hinv e he
    rcases rpc_ledger_cases w env vid dec t with h | ⟨_, hz, _, hl⟩
    · rw [h] at he
      exact hinv e he
    · rw [hl] at he
      rcases List.mem_append.mp he with h' | h'
      · exact hinv e h'
      · cases List.mem_singleton.mp h'
        exact hz
  · intro w env name dec hinv e he
    rcases gui_ledger_cases w env name dec with h | ⟨_, hz, _, hl⟩
    · rw [h] at he
      exact hinv e he
    · rw [hl] at he
      rcases List.mem_append.mp he with h' | h'
      · exact hinv e h'
      · cases List.mem_singleton.mp h'
        exact hz
  · intro w env vid dec t hfind hz
    have hl : (postoffchainproposals w env vid dec t).ledger = env.govEntries := by
      rcases rpc_ledger_cases w env vid dec t with h | ⟨_, hz', _, _⟩
      · exact h
      · exact absurd hz hz'
    refine ⟨hl, ?_⟩
    rw [hl]
    exact rpc_not_alreadyVoted_of_no_entry w env vid dec t hfind

/-- Concrete runs of the write conditions: the nonzero-weight invariant is
preserved through a successful cast, and a zero-weight success leaves the
ledger empty and the repeat cast un-rejected. -/
theorem govEntry_written_only_on_success_nonzero_witness :
    (∀ e ∈ (postoffchainproposals emptyWallet
        { baseEnv with govEntries := [⟨"q", 3⟩], votes := [⟨"p1", "a", 7⟩] }
        "p1" "1" 0).ledger, e.voteWeight ≠ 0) ∧
    ((postoffchainproposals emptyWallet baseEnv "p1" "1" 0).ledger =
        baseEnv.govEntries ∧
      (postoffchainproposals emptyWallet
        { baseEnv with govEntries :=
            (postoffchainproposals emptyWallet baseEnv "p1" "1" 0).ledger }
        "p1" "1" 0).result.isAlreadyVoted = false) := by
  refine ⟨?_, ?_⟩
  · exact govEntry_written_only_on_success_nonzero.2.2.1 emptyWallet
      { baseEnv with govEntries := [⟨"q", 3⟩], votes := [⟨"p1", "a", 7⟩] }
      "p1" "1" 0 (by decide)
  · exact govEntry_written_only_on_success_nonzero.2.2.2.2 emptyWallet baseEnv
      "p1" "1" 0 rfl rfl

/-- C4 (counterexample): with current time 4000000 the wallet's only
coinstake transaction (time 0) lies outside the 46-day window; the RPC
collection is accordingly empty, yet the GUI cast path still collects the
transaction's output script and posts a ballot signed from it — refuting
the window restriction on "every cast path". -/
theorem stake_window_gui_path_cex :
    stakeTx.txTime < 4000000 - vote_timeframe ∧
    collectVotingAddressesRPC stakeWallet 4000000 = [] ∧
    collectVotingAddressesGUI stakeWallet = [s1] ∧
    (OffChainGovernance.vote stakeWallet { baseEnv with proposals := [cexP1] }
      "A" "1").requests =
      [⟨.CAST_VOTE, "[" ++ ballotJSON "v1" "addr1" "U0lH" "1" ++ "]"⟩,
       ⟨.GET_PROPOSALS, ""⟩] := by
  refine ⟨by decide, by decide, by decide, by decide⟩

/-- C4 (amended): on the RPC cast path a script is collected exactly when
it is an owned, non-script-hash output script of some coinstake
transaction whose time is not before current time minus 46 days; the GUI
cast path collects by the same rule but with NO time restriction. -/
theorem votingAddresses_membership_characterization (w : CWallet) (t : Int)
    (s : CScript) :
    (s ∈ collectVotingAddressesRPC w t ↔
      ∃ wtx ∈ w.mapWallet, wtx.isCoinStake = true ∧
        ¬(wtx.txTime < t - vote_timeframe) ∧
        (∃ v ∈ wtx.vout, v.scriptPubKey = s) ∧ w.isMine s = true ∧
        s.isPayToScriptHashAny = false) ∧
    (s ∈ collectVotingAddressesGUI w ↔
      ∃ wtx ∈ w.mapWallet, wtx.isCoinStake = true ∧
        (∃ v ∈ wtx.vout, v.scriptPubKey = s) ∧ w.isMine s = true ∧
        s.isPayToScriptHashAny = false) := by
  constructor
  · simp only [collectVotingAddressesRPC]
    rw [txScanRPC_mem]
    simp
  · simp only [collectVotingAddressesGUI]
    rw [txScanGUI_mem]
    simp

/-- Concrete run of the membership characterization on the one-coinstake
wallet: s1 is collected on the GUI path, and the characterizing
existential holds of it. -/
theorem votingAddresses_membership_characterization_witness :
    s1 ∈ collectVotingAddressesGUI stakeWallet ∧
    (∃ wtx ∈ stakeWallet.mapWallet, wtx.isCoinStake = true ∧
      (∃ v ∈ wtx.vout, v.scriptPubKey = s1) ∧ stakeWallet.isMine s1 = true ∧
      s1.isPayToScriptHashAny = false) := by
  refine ⟨(votingAddresses_membership_characterization stakeWallet 0 s1).2.mpr ?_,
    (votingAddresses_membership_characterization stakeWallet 0 s1).2.mp (by decide)⟩
  exact ⟨stakeTx, by decide, rfl, ⟨⟨s1⟩, by decide, rfl⟩, rfl, rfl⟩

/-- C5 (counterexample): an RPC cast issued while the node is still in
initial block download proceeds all the way to a network request and a
success result — there is no synchronization gate on this path. -/
theorem rpc_cast_ignores_sync_cex :
    (postoffchainproposals emptyWallet
      { baseEnv with isInitialBlockDownload := true } "p1" "1" 0).result =
      .success 0 ∧
    (postoffchainproposals emptyWallet
      { baseEnv with isInitialBlockDownload := true } "p1" "1" 0).requests =
      [⟨.CAST_VOTE, "[]"⟩] := by
  refine ⟨by decide, by decide⟩

/-- C5 (amended): the GUI cast path fails immediately — before collecting
addresses, signing, or any network request — when the node is still
syncing, while the RPC cast path never consults the synchronization flag:
its outcome is identical for any value of that flag. -/
theorem sync_gate_gui_only :
    (∀ (w : CWallet) (env : GovEnv) (name dec : String),
      env.isInitialBlockDownload = true →
      OffChainGovernance.vote w env name dec = ⟨.notSynced, [], env.govEntries⟩) ∧
    (∀ (w : CWallet) (env : GovEnv) (vid dec : String) (t : Int) (b : Bool),
      postoffchainproposals w { env with isInitialBlockDownload := b } vid dec t =
        postoffchainproposals w env vid dec t) := by
  constructor
  · intro w env name dec h
    simp [OffChainGovernance.vote, h]
  · intro w env vid dec t b
    rfl

/-- Concrete run of the GUI sync gate: with the sync flag set, the GUI
cast returns the not-synced failure with no requests and no write. -/
theorem sync_gate_gui_only_witness :
    OffChainGovernance.vote emptyWallet
      { baseEnv with isInitialBlockDownload := true } "A" "1" =
      ⟨.notSynced, [], []⟩ ∧
    postoffchainproposals emptyWallet
      { baseEnv with isInitialBlockDownload := true } "p1" "1" 0 =
      postoffchainproposals emptyWallet baseEnv "p1" "1" 0 := by
  refine ⟨?_, ?_⟩
  · exact sync_gate_gui_only.1 emptyWallet
      { baseEnv with isInitialBlockDownload := true } "A" "1" rfl
  · exact sync_gate_gui_only.2 emptyWallet baseEnv "p1" "1" 0 true

/-- C9 (confirmed): if any address in the eligible set fails to sign (bad
destination, missing key, or signer declining), the signing loop as a
whole fails, and in that case each cast path returns the signing error
having issued no request and left the ledger unchanged — no partial ballot
batch is ever submitted. -/
theorem signing_failure_aborts_whole_cast :
    (∀ (w : CWallet) (vid dec : String) (addrs : List CScript) (id : Nat),
      (∃ a ∈ addrs, ∃ e, signOneBallot w vid dec a = .error e) →
      ∃ e, signBallotsLoop w vid dec id addrs = .error e) ∧
    (∀ (w : CWallet) (env : GovEnv) (vid dec : String) (t : Int) (e : SignErr),
      env.walletUnlocked = true →
      findGovEntry vid env.govEntries = none →
      buildPostMessage w vid dec (collectVotingAddressesRPC w t) = .error e →
      postoffchainproposals w env vid dec t =
        ⟨.signError e, [], env.govEntries⟩) ∧
    (∀ (w : CWallet) (env : GovEnv) (name dec : String) (e : SignErr),
      env.isInitialBlockDownload = false → env.unlockOK = true →
      findGovEntry (resolveSelectedProposal name env.proposals).vote_id
        env.govEntries = none →
      env.confirmYes = true →
      buildPostMessage w (resolveSelectedProposal name env.proposals).vote_id dec
        (collectVotingAddressesGUI w) = .error e →
      OffChainGovernance.vote w env name dec =
        ⟨.signError e, [], env.govEntries⟩) :=
  ⟨fun w vid dec addrs id h => signBallotsLoop_error_of_mem w vid dec addrs id h,
   fun w env vid dec t e hu hf hpm => rpc_signError_guard w env vid dec t e hu hf hpm,
   fun w env name dec e h1 h2 h3 h4 h5 =>
     gui_signError_guard w env name dec e h1 h2 h3 h4 h5⟩

/-- Concrete aborted cast: the wallet cannot produce a private key for its
one eligible address, the signing loop fails with the key-unavailable
error, and the RPC cast returns that error without any network request. -/
theorem signing_failure_aborts_whole_cast_witness :
    (∃ e, signBallotsLoop failWallet "p1" "1" 0 [s1] = .error e) ∧
    postoffchainproposals failWallet baseEnv "p1" "1" 0 =
      ⟨.signError .keyUnavailable, [], []⟩ := by
  refine ⟨?_, ?_⟩
  · exact signing_failure_aborts_whole_cast.1 failWallet "p1" "1" [s1] 0
      ⟨s1, by decide, .keyUnavailable, rfl⟩
  · exact signing_failure_aborts_whole_cast.2.1 failWallet baseEnv "p1" "1" 0
      .keyUnavailable rfl rfl rfl

/-- C10 (counterexample): two buffered proposals share the display name A
but carry distinct vote ids v1 and v2; the GUI cast on a selected row
named A resolves the FIRST name match, so its ballots and its ledger write
carry v1 — regardless of which of the two proposals the user actually
selected — and a selected name matching no buffered proposal resolves to
the default proposal whose vote id is the empty string. -/
theorem vote_id_resolved_by_display_name_cex :
    cexP1.name = cexP2.name ∧
    cexP1.vote_id ≠ cexP2.vote_id ∧
    resolveSelectedProposal "A" [cexP1, cexP2] = cexP1 ∧
    (OffChainGovernance.vote stakeWallet
      { baseEnv with proposals := [cexP1, cexP2], votes := [⟨"v1", "addr1", 7⟩] }
      "A" "1").requests =
      [⟨.CAST_VOTE, "[" ++ ballotJSON "v1" "addr1" "U0lH" "1" ++ "]"⟩,
       ⟨.GET_PROPOSALS, ""⟩] ∧
    (OffChainGovernance.vote stakeWallet
      { baseEnv with proposals := [cexP1, cexP2], votes := [⟨"v1", "addr1", 7⟩] }
      "A" "1").ledger = [⟨"v1", 7⟩] ∧
    resolveSelectedProposal "Z" [cexP1, cexP2] = {} := by
  refine ⟨by decide, by decide, by decide, by decide, by decide, by decide⟩

/-- C10 (amended): the vote identifier a GUI cast runs under is that of
the FIRST buffered proposal whose display name equals the selected row's
name — the default proposal (empty vote id) when none matches — and the
cast is entirely determined by that resolved identifier. -/
theorem vote_id_first_name_match :
    (∀ (name : String) (p : Proposals) (rest : List Proposals),
      name = p.name → resolveSelectedProposal name (p :: rest) = p) ∧
    (∀ (name : String) (props : List Proposals),
      (∀ q ∈ props, q.name ≠ name) → resolveSelectedProposal name props = {}) ∧
    (∀ (name : String) (props : List Proposals),
      resolveSelectedProposal name props ∈ props ∨
      resolveSelectedProposal name props = {}) ∧
    (∀ (w : CWallet) (env : GovEnv) (name dec : String),
      env.isInitialBlockDownload = false → env.unlockOK = true →
      OffChainGovernance.vote w env name dec =
        voteOnId w env (resolveSelectedProposal name env.proposals).vote_id dec) := by
  refine ⟨?_, ?_, ?_, ?_⟩
  · intro name p rest h
    simp [resolveSelectedProposal, h]
  · intro name props
    induction props with
    | nil => intro h; rfl
    | cons p rest ih =>
      intro hall
      have hp : ¬name = p.name :=
        fun h => hall p (List.mem_cons_self _ _) h.symm
      rw [show resolveSelectedProposal name (p :: rest) =
          resolveSelectedProposal name rest by
        simp [resolveSelectedProposal, hp]]
      exact ih (fun q hq => hall q (List.mem_cons_of_mem _ hq))
  · intro name props
    induction props with
    | nil => exact Or.inr rfl
    | cons p rest ih =>
      by_cases h : name = p.name
      · exact Or.inl (by simp [resolveSelectedProposal, h])
      · rcases ih with h' | h'
        · refine Or.inl ?_
          rw [show resolveSelectedProposal name (p :: rest) =
              resolveSelectedProposal name rest by
            simp [resolveSelectedProposal, h]]
          exact List.mem_cons_of_mem _ h'
        · refine Or.inr ?_
          rw [show resolveSelectedProposal name (p :: rest) =
              resolveSelectedProposal name rest by
            simp [resolveSelectedProposal, h]]
          exact h'
  · intro w env name dec h1 h2
    simp [OffChainGovernance.vote, h1, h2]

/-- Concrete resolutions: the first A-named proposal wins, an unmatched
name resolves to the default, and the GUI cast factors through the
resolved vote id. -/
theorem vote_id_first_name_match_witness :
    resolveSelectedProposal "A" [cexP1, cexP2] = cexP1 ∧
    resolveSelectedProposal "Z" [cexP1, cexP2] = {} ∧
    OffChainGovernance.vote emptyWallet
      { baseEnv with proposals := [cexP1, cexP2] } "A" "1" =
      voteOnId emptyWallet { baseEnv with proposals := [cexP1, cexP2] }
        (resolveSelectedProposal "A"
          ({ baseEnv with proposals := [cexP1, cexP2] } : GovEnv).proposals).vote_id
        "1" := by
  refine ⟨?_, ?_, ?_⟩
  · exact vote_id_first_name_match.1 "A" cexP1 [cexP2] rfl
  · exact vote_id_first_name_match.2.1 "Z" [cexP1, cexP2] (by decide)
  · exact vote_id_first_name_match.2.2.2 emptyWallet
      { baseEnv with proposals := [cexP1, cexP2] } "A" "1" rfl rfl
